import Mathlib

/-!
Verification of the Konnwei battery monitor packet codec and polling
session, shallowly embedded from
`custom_components/konnwei_battery_monitor/protocol.py`,
`const.py` and `coordinator.py`.

Python byte strings are modelled as `List Nat`, each element a byte
value (< 256 whenever it originates from a real byte string).
-/

namespace Konnwei

/-! Packet codec (protocol.py) -/

/-- One iteration of the inner 8-step loop of `crc16_x25`:
`if crc & 1: crc = (crc >> 1) ^ 0x8408 else: crc >>= 1`. -/
def crc16_round (c : Nat) : Nat :=
  if c &&& 1 = 1 then (c >>> 1) ^^^ 0x8408 else c >>> 1

/-- Iterated application of `crc16_round`, modelling `for _ in range(n)`. -/
def crc16_loop : Nat → Nat → Nat
  | 0, c => c
  | n + 1, c => crc16_loop n (crc16_round c)

/-- Processing of a single input byte by `crc16_x25`:
`crc ^= byte` followed by eight rounds. -/
def crc16_update (crc b : Nat) : Nat :=
  crc16_loop 8 (crc ^^^ b)

/-- `protocol.crc16_x25`: register starts at 0xFFFF, each byte is folded
in via `crc16_update`, and the final register is XORed with 0xFFFF. -/
def crc16_x25 (data : List Nat) : Nat :=
  (data.foldl crc16_update 0xFFFF) ^^^ 0xFFFF

/-- `protocol.validate_packet`: requires length >= 10, footer `0D 0A`
(`data[-2:]`), and CRC residue 0x0F47 over everything but the footer
(`data[:-2]`). -/
def validate_packet (data : List Nat) : Bool :=
  if data.length < 10 then false
  else if data.drop (data.length - 2) ≠ [0x0D, 0x0A] then false
  else crc16_x25 (data.take (data.length - 2)) == 0x0F47

/-- Little-endian 2-byte encoding, modelling `struct.pack("<H", n)`
(exact for n < 2^16, the only values Python's pack accepts). -/
def le16 (n : Nat) : List Nat :=
  [n % 256, n / 256 % 256]

/-- `protocol.build_packet`: header `40 40`, little-endian length
`10 + len(data)`, command, payload, little-endian CRC, footer `0D 0A`. -/
def build_packet (command : List Nat) (data : List Nat) : List Nat :=
  let header := [0x40, 0x40]
  let footer := [0x0D, 0x0A]
  let length := 10 + data.length
  let payload := header ++ le16 length ++ command ++ data
  let crc := crc16_x25 payload
  payload ++ le16 crc ++ footer

/-- Python slice `data[a:b]` (for a <= b). -/
def pySlice (data : List Nat) (a b : Nat) : List Nat :=
  (data.drop a).take (b - a)

/-- Result record of `parse_status_response`.  The voltage is kept as an
exact rational (`raw / 100`), abstracting Python's float division by
`100.0`; distinct raw values give distinct voltages either way. -/
structure StatusReading where
  voltage : ℚ
  battery_ok : Bool
  charging : Bool
deriving DecidableEq, Repr

/-- `protocol.parse_status_response`: length >= 14, header `24 24`,
command bytes `4B 0B` at `data[4:6]`, CRC validation, then extracts the
little-endian voltage at `data[6:8]` (divided by 100), battery status
byte `data[8]` (ok iff 0x02) and charging byte `data[9]` (iff 0x01). -/
def parse_status_response (data : List Nat) : Option StatusReading :=
  if data.length < 14 then none
  else if pySlice data 0 2 ≠ [0x24, 0x24] then none
  else if pySlice data 4 6 ≠ [0x4B, 0x0B] then none
  else if ¬ validate_packet data then none
  else
    let voltage_raw := data.getD 6 0 + 256 * data.getD 7 0
    some { voltage := (voltage_raw : ℚ) / 100
           battery_ok := data.getD 8 0 == 0x02
           charging := data.getD 9 0 == 0x01 }

/-- Python `bytes.rstrip(b"\x00")`: remove trailing zero bytes. -/
def rstripZeros (l : List Nat) : List Nat :=
  (l.reverse.dropWhile (· = 0)).reverse

/-- Python `bytes.decode("ascii", errors="ignore")`, modelled on byte
lists: every non-ASCII byte (>= 0x80) is dropped, ASCII bytes are kept
(the resulting string is the kept bytes read as characters). -/
def decodeAsciiIgnore (l : List Nat) : List Nat :=
  l.filter (· < 128)

/-- One 10-byte text field of the device-info packet:
`data[off:off+10].rstrip(b"\x00").decode("ascii", errors="ignore")`. -/
def infoField (data : List Nat) (off : Nat) : List Nat :=
  decodeAsciiIgnore (rstripZeros (pySlice data off (off + 10)))

/-- Result record of `parse_device_info_response` (the dict with keys
`model`, `hw_version`, `fw_version`); text fields are byte lists. -/
structure DeviceInfo where
  model : List Nat
  hw_version : List Nat
  fw_version : List Nat
deriving DecidableEq, Repr

/-- `protocol.parse_device_info_response`: length >= 54, header `24 24`,
command bytes `43 01` at `data[4:6]`, CRC validation, then the three
10-byte fields at offsets 6, 16 and 26. -/
def parse_device_info_response (data : List Nat) : Option DeviceInfo :=
  if data.length < 54 then none
  else if pySlice data 0 2 ≠ [0x24, 0x24] then none
  else if pySlice data 4 6 ≠ [0x43, 0x01] then none
  else if ¬ validate_packet data then none
  else
    some { model := infoField data 6
           hw_version := infoField data 16
           fw_version := infoField data 26 }

/-! Precomputed command constants (const.py) -/

/-- `const.CMD_STATUS_POLL = bytes.fromhex("40400A000B0BA9B20D0A")`. -/
def CMD_STATUS_POLL : List Nat :=
  [0x40, 0x40, 0x0A, 0x00, 0x0B, 0x0B, 0xA9, 0xB2, 0x0D, 0x0A]

/-- `const.CMD_DEVICE_INFO = bytes.fromhex("40400A00030133D30D0A")`. -/
def CMD_DEVICE_INFO : List Nat :=
  [0x40, 0x40, 0x0A, 0x00, 0x03, 0x01, 0x33, 0xD3, 0x0D, 0x0A]

/-! Polling session (coordinator.py).

`KonnweiCoordinator` state relevant to the claims: the cached device
info (`self._device_info`, an `Optional[dict]`; a parsed dict always
has its three keys, so Python truthiness of the cache coincides with
`isSome`) and the latest notification bytes (`self._response_data`).
The asynchronous wait on `self._response_event` is modelled by its
outcome: either the timeout fires with no notification delivered, or
the notification callback delivered some bytes before the deadline
(`_notification_handler` stores the bytes and sets the event). -/

/-- Mutable coordinator state: `self._device_info` and
`self._response_data`. -/
structure SessionState where
  device_info : Option DeviceInfo
  response_data : Option (List Nat)
deriving DecidableEq, Repr

/-- Outcome of one armed wait (`asyncio.wait_for(event.wait(), ...)`):
either the timeout elapsed with no notification, or the transport
delivered `data` through `_notification_handler` before the deadline. -/
inductive NotifyOutcome where
  | timeout
  | delivered (data : List Nat)
deriving DecidableEq, Repr

/-- The `UpdateFailed` messages raised along the modelled paths of
`_fetch_device_info` and `_async_update_data`. -/
inductive Failure where
  | deviceInfoTimeout
  | noDeviceInfoResponse
  | invalidDeviceInfo
  | statusTimeout
  | noStatusResponse
  | invalidStatus
deriving DecidableEq, Repr

/-- Python's `not self._response_data`: true for `None` and for the
empty byte string alike. -/
def responseMissing : Option (List Nat) → Bool
  | none => true
  | some d => d.isEmpty

/-- `KonnweiCoordinator._fetch_device_info`, given the outcome of its
armed wait.  Returns the byte strings written to the transport, the
state after the call, and the failure raised (if any).  If the cache is
populated it returns at once with no write; otherwise it clears
`_response_data`, writes `CMD_DEVICE_INFO`, waits, and on a delivered
response checks emptiness, parses, and caches a successful parse. -/
def fetchDeviceInfo (s : SessionState) (o : NotifyOutcome) :
    List (List Nat) × SessionState × Option Failure :=
  match s.device_info with
  | some _ => ([], s, none)
  | none =>
    let s1 : SessionState := { s with response_data := none }
    match o with
    | .timeout => ([CMD_DEVICE_INFO], s1, some .deviceInfoTimeout)
    | .delivered d =>
      let s2 : SessionState := { s1 with response_data := some d }
      if responseMissing s2.response_data then
        ([CMD_DEVICE_INFO], s2, some .noDeviceInfoResponse)
      else
        match parse_device_info_response d with
        | none => ([CMD_DEVICE_INFO], s2, some .invalidDeviceInfo)
        | some info => ([CMD_DEVICE_INFO], { s2 with device_info := some info }, none)

/-- `KonnweiCoordinator._async_update_data` from the point where the
client is connected and notifications are subscribed: runs
`_fetch_device_info` (outcome `o1`), and only if it succeeded clears
`_response_data`, writes `CMD_STATUS_POLL`, waits (outcome `o2`), and
checks/parses the status response.  Returns the transport writes of the
whole cycle, the final state, and the cycle's result. -/
def updateCycle (s : SessionState) (o1 o2 : NotifyOutcome) :
    List (List Nat) × SessionState × Except Failure StatusReading :=
  match fetchDeviceInfo s o1 with
  | (ws, s', some e) => (ws, s', .error e)
  | (ws, s', none) =>
    let s1 : SessionState := { s' with response_data := none }
    match o2 with
    | .timeout => (ws ++ [CMD_STATUS_POLL], s1, .error .statusTimeout)
    | .delivered d =>
      let s2 : SessionState := { s1 with response_data := some d }
      if responseMissing s2.response_data then
        (ws ++ [CMD_STATUS_POLL], s2, .error .noStatusResponse)
      else
        match parse_status_response d with
        | none => (ws ++ [CMD_STATUS_POLL], s2, .error .invalidStatus)
        | some st => (ws ++ [CMD_STATUS_POLL], s2, .ok st)

/-! Concrete packets used as witnesses (the first two are the known
vectors recorded in the repository's own test suite). -/

/-- Known-good status response: voltage 0x04EE = 1262, battery ok,
charging. -/
def statusVec : List Nat :=
  [0x24, 0x24, 0x0E, 0x00, 0x4B, 0x0B, 0xEE, 0x04, 0x02, 0x01, 0x08, 0xB4,
   0x0D, 0x0A]

/-- Known-good device-info response: model "BK300", hardware "1.1",
firmware "1.0.3", fourth field "9.9.9", capabilities 00 04 00 04. -/
def infoVec : List Nat :=
  [0x24, 0x24, 0x36, 0x00, 0x43, 0x01] ++
  [0x42, 0x4B, 0x33, 0x30, 0x30, 0, 0, 0, 0, 0] ++
  [0x31, 0x2E, 0x31, 0, 0, 0, 0, 0, 0, 0] ++
  [0x31, 0x2E, 0x30, 0x2E, 0x33, 0, 0, 0, 0, 0] ++
  [0x39, 0x2E, 0x39, 0x2E, 0x39, 0, 0, 0, 0, 0] ++
  [0x00, 0x04, 0x00, 0x04] ++ [0x33, 0xE6] ++ [0x0D, 0x0A]

/-- Status response whose embedded length field is zeroed out (instead
of the documented 0x000E) with the CRC recomputed accordingly. -/
def statusVecBadLen : List Nat :=
  [0x24, 0x24, 0x00, 0x00, 0x4B, 0x0B, 0xEE, 0x04, 0x02, 0x01, 0x05, 0x84,
   0x0D, 0x0A]

/-- Device-info response whose embedded length field is zeroed out
(instead of the documented 0x0036) with the CRC recomputed. -/
def infoVecBadLen : List Nat :=
  [0x24, 0x24, 0x00, 0x00, 0x43, 0x01] ++
  [0x42, 0x4B, 0x33, 0x30, 0x30, 0, 0, 0, 0, 0] ++
  [0x31, 0x2E, 0x31, 0, 0, 0, 0, 0, 0, 0] ++
  [0x31, 0x2E, 0x30, 0x2E, 0x33, 0, 0, 0, 0, 0] ++
  [0x39, 0x2E, 0x39, 0x2E, 0x39, 0, 0, 0, 0, 0] ++
  [0x00, 0x04, 0x00, 0x04] ++ [0x03, 0x51] ++ [0x0D, 0x0A]

/-! CRC-16/X.25 residue theorem.  Appending the little-endian CRC of a
message to the message and re-running `crc16_x25` always produces the
pre-final-XOR residue 0xF0B8, hence the final value 0x0F47.  The key
observation: XORing the first appended CRC byte into the register
forces the register's low byte to 0xFF, so the whole check depends only
on the register's high byte — 256 cases, settled by kernel computation. -/

theorem xor_low_byte (r : Nat) :
    r ^^^ ((r ^^^ 0xFFFF) % 256) = ((r >>> 8) <<< 8) ^^^ 255 := by
  apply Nat.eq_of_testBit_eq
  intro i
  have h1 : (256 : Nat) = 2 ^ 8 := by norm_num
  have h2 : (0xFFFF : Nat) = 2 ^ 16 - 1 := by norm_num
  have h3 : (255 : Nat) = 2 ^ 8 - 1 := by norm_num
  rw [h1, h2, h3]
  simp only [Nat.testBit_xor, Nat.testBit_mod_two_pow, Nat.testBit_shiftLeft,
    Nat.testBit_shiftRight, Nat.testBit_two_pow_sub_one]
  by_cases hi : i < 8
  · have h16 : i < 16 := by omega
    have hge : ¬ (8 ≤ i) := by omega
    simp [hi, h16, hge]
  · have hge : 8 ≤ i := by omega
    have hix : 8 + (i - 8) = i := by omega
    simp [hi, hge, hix]

theorem xor_high_byte (r : Nat) :
    (r ^^^ 0xFFFF) >>> 8 = (r >>> 8) ^^^ 255 := by
  apply Nat.eq_of_testBit_eq
  intro i
  have h2 : (0xFFFF : Nat) = 2 ^ 16 - 1 := by norm_num
  have h3 : (255 : Nat) = 2 ^ 8 - 1 := by norm_num
  rw [h2, h3]
  simp only [Nat.testBit_xor, Nat.testBit_shiftRight, Nat.testBit_two_pow_sub_one]
  congr 1
  simp only [decide_eq_decide]
  omega

theorem xor_lt_65536 {a b : Nat} (ha : a < 65536) (hb : b < 65536) :
    a ^^^ b < 65536 := by
  have h : (65536 : Nat) = 2 ^ 16 := by norm_num
  rw [h] at ha hb ⊢
  exact Nat.xor_lt_two_pow ha hb

theorem crc16_round_lt {c : Nat} (hc : c < 65536) : crc16_round c < 65536 := by
  have hs : c >>> 1 < 65536 := by
    have e : c >>> 1 = c / 2 ^ 1 := Nat.shiftRight_eq_div_pow c 1
    rw [e]
    omega
  unfold crc16_round
  split
  · exact xor_lt_65536 hs (by norm_num)
  · exact hs

theorem crc16_loop_lt : ∀ (n : Nat) {c : Nat}, c < 65536 →
    crc16_loop n c < 65536
  | 0, _, hc => hc
  | n + 1, _, hc => crc16_loop_lt n (crc16_round_lt hc)

theorem crc16_update_lt {c b : Nat} (hc : c < 65536) (hb : b < 65536) :
    crc16_update c b < 65536 :=
  crc16_loop_lt 8 (xor_lt_65536 hc hb)

theorem crc16_fold_lt : ∀ (l : List Nat), (∀ b ∈ l, b < 65536) →
    ∀ {a : Nat}, a < 65536 → l.foldl crc16_update a < 65536
  | [], _, _, ha => ha
  | x :: xs, hl, _, ha =>
    crc16_fold_lt xs (fun b hb => hl b (List.mem_cons_of_mem x hb))
      (crc16_update_lt ha (hl x (List.mem_cons_self x xs)))

set_option maxRecDepth 4000 in
/-- Kernel-checked core of the residue theorem: for every high byte `h`
of the register, processing the two appended CRC bytes lands on the
pre-final-XOR residue 0xF0B8. -/
theorem residue_key_byte : ∀ h < 256,
    crc16_update (crc16_loop 8 ((h <<< 8) ^^^ 255)) (h ^^^ 255) = 0xF0B8 := by
  decide

theorem crc16_residue (r : Nat) (hr : r < 65536) :
    crc16_update (crc16_update r ((r ^^^ 0xFFFF) % 256))
      ((r ^^^ 0xFFFF) / 256 % 256) = 0xF0B8 := by
  have h8 : r >>> 8 < 256 := by
    have e : r >>> 8 = r / 2 ^ 8 := Nat.shiftRight_eq_div_pow r 8
    have e2 : (2 : Nat) ^ 8 = 256 := by norm_num
    rw [e, e2]
    omega
  have hdiv : (r ^^^ 0xFFFF) / 256 = (r ^^^ 0xFFFF) >>> 8 := by
    have e : (r ^^^ 0xFFFF) >>> 8 = (r ^^^ 0xFFFF) / 2 ^ 8 :=
      Nat.shiftRight_eq_div_pow _ 8
    rw [e]
    norm_num
  have hmod : ((r >>> 8) ^^^ 255) % 256 = (r >>> 8) ^^^ 255 := by
    apply Nat.mod_eq_of_lt
    have h : (256 : Nat) = 2 ^ 8 := by norm_num
    rw [h] at h8 ⊢
    exact Nat.xor_lt_two_pow h8 (by norm_num)
  have hfirst : crc16_update r ((r ^^^ 0xFFFF) % 256) =
      crc16_loop 8 (((r >>> 8) <<< 8) ^^^ 255) := by
    unfold crc16_update
    rw [xor_low_byte]
  rw [hdiv, xor_high_byte, hmod, hfirst]
  exact residue_key_byte (r >>> 8) h8

/-- Running `crc16_x25` over a message with its own little-endian CRC
appended always yields the residue constant 0x0F47. -/
theorem crc16_append_residue (msg : List Nat) (hmsg : ∀ b ∈ msg, b < 65536) :
    crc16_x25 (msg ++ le16 (crc16_x25 msg)) = 0x0F47 := by
  have hRlt : msg.foldl crc16_update 0xFFFF < 65536 :=
    crc16_fold_lt msg hmsg (by norm_num)
  show (List.foldl crc16_update 0xFFFF (msg ++ le16 (crc16_x25 msg))) ^^^ 0xFFFF
      = 0x0F47
  rw [List.foldl_append]
  show crc16_update
      (crc16_update (msg.foldl crc16_update 0xFFFF) (crc16_x25 msg % 256))
      (crc16_x25 msg / 256 % 256) ^^^ 0xFFFF = 0x0F47
  have hx : crc16_x25 msg = (msg.foldl crc16_update 0xFFFF) ^^^ 0xFFFF := rfl
  rw [hx, crc16_residue _ hRlt]
  decide

/-- Any message of length at least 6 followed by its own little-endian
CRC and the footer passes `validate_packet`. -/
theorem validate_packet_append (msg : List Nat) (h6 : 6 ≤ msg.length)
    (hmsg : ∀ b ∈ msg, b < 65536) :
    validate_packet ((msg ++ le16 (crc16_x25 msg)) ++ [0x0D, 0x0A]) = true := by
  have hdl : (msg ++ le16 (crc16_x25 msg)).length = msg.length + 2 := by
    simp [le16]
  have hlen : ((msg ++ le16 (crc16_x25 msg)) ++ [0x0D, 0x0A]).length
      = msg.length + 4 := by
    simp [le16]
  have hidx : msg.length + 4 - 2 = (msg ++ le16 (crc16_x25 msg)).length := by
    rw [hdl]
    omega
  have hdrop : ((msg ++ le16 (crc16_x25 msg)) ++ [0x0D, 0x0A]).drop
      (msg.length + 4 - 2) = [0x0D, 0x0A] := by
    rw [hidx, List.drop_left]
  have htake : ((msg ++ le16 (crc16_x25 msg)) ++ [0x0D, 0x0A]).take
      (msg.length + 4 - 2) = msg ++ le16 (crc16_x25 msg) := by
    rw [hidx, List.take_left]
  unfold validate_packet
  rw [hlen, if_neg (by omega), hdrop, htake]
  simp [crc16_append_residue msg hmsg]

set_option linter.unusedVariables false in
/-- Claim C1.  For every 2-byte command (bytes < 256) and every payload
of bytes < 256 whose framed length `10 + len(payload)` fits in a u16,
the packet produced by `build_packet` satisfies `validate_packet`. -/
theorem build_packet_validate (command data : List Nat)
    (hcmd : command.length = 2)
    (hc : ∀ b ∈ command, b < 256) (hd : ∀ b ∈ data, b < 256)
    (hfit : 10 + data.length < 65536) :
    validate_packet (build_packet command data) = true := by
  have hb : build_packet command data =
      (([0x40, 0x40] ++ le16 (10 + data.length) ++ command ++ data) ++
        le16 (crc16_x25
          ([0x40, 0x40] ++ le16 (10 + data.length) ++ command ++ data))) ++
        [0x0D, 0x0A] := rfl
  have h6 : 6 ≤ ([0x40, 0x40] ++ le16 (10 + data.length) ++ command ++
      data).length := by
    simp [le16, hcmd]
  have hmsg : ∀ b ∈ [0x40, 0x40] ++ le16 (10 + data.length) ++ command ++
      data, b < 65536 := by
    intro b hb'
    simp only [List.mem_append] at hb'
    rcases hb' with ((hb1 | hb2) | hb3) | hb4
    · simp only [List.mem_cons, List.not_mem_nil, or_false] at hb1
      rcases hb1 with h | h <;> omega
    · simp only [le16, List.mem_cons, List.not_mem_nil, or_false] at hb2
      rcases hb2 with h | h <;> omega
    · have := hc b hb3
      omega
    · have := hd b hb4
      omega
  rw [hb]
  exact validate_packet_append _ h6 hmsg

/-- Witness for C1 at the status-poll command with empty payload. -/
theorem build_packet_validate_witness :
    validate_packet (build_packet [0x0B, 0x0B] []) = true :=
  build_packet_validate [0x0B, 0x0B] [] (by decide)
    (by decide) (by decide) (by decide)

/-- Claim C2.  `validate_packet` accepts exactly the byte strings of
length at least 10 whose final two bytes are `0D 0A` and whose CRC over
everything except the footer equals the residue constant 0x0F47. -/
theorem validate_packet_iff (data : List Nat) :
    validate_packet data = true ↔
      10 ≤ data.length ∧ data.drop (data.length - 2) = [0x0D, 0x0A] ∧
        crc16_x25 (data.take (data.length - 2)) = 0x0F47 := by
  unfold validate_packet
  split_ifs with h1 h2
  · simp only [Bool.false_eq_true, false_iff]
    rintro ⟨h, -, -⟩
    omega
  · simp only [Bool.false_eq_true, false_iff]
    rintro ⟨-, h, -⟩
    exact h2 h
  · simp only [beq_iff_eq]
    constructor
    · intro h
      exact ⟨by omega, not_not.mp h2, h⟩
    · rintro ⟨-, -, h⟩
      exact h

/-- Claim C3.  `parse_status_response` returns `None` exactly when the
input is shorter than 14 bytes, or its header is not `24 24`, or its
command bytes are not `4B 0B`, or `validate_packet` rejects it; and any
returned reading has voltage equal to the little-endian u16 at bytes
6..7 divided by 100, `battery_ok` true exactly for battery byte 0x02,
and `charging` true exactly for charging byte 0x01. -/
theorem parse_status_response_spec (data : List Nat) :
    (parse_status_response data = none ↔
      data.length < 14 ∨ pySlice data 0 2 ≠ [0x24, 0x24] ∨
        pySlice data 4 6 ≠ [0x4B, 0x0B] ∨ validate_packet data = false) ∧
    ∀ r, parse_status_response data = some r →
      r.voltage = ((data.getD 6 0 : ℚ) + 256 * (data.getD 7 0 : ℚ)) / 100 ∧
      (r.battery_ok = true ↔ data.getD 8 0 = 0x02) ∧
      (r.charging = true ↔ data.getD 9 0 = 0x01) := by
  constructor
  · unfold parse_status_response
    by_cases h1 : data.length < 14
    · rw [if_pos h1]
      exact iff_of_true rfl (Or.inl h1)
    rw [if_neg h1]
    by_cases h2 : pySlice data 0 2 ≠ [0x24, 0x24]
    · rw [if_pos h2]
      exact iff_of_true rfl (Or.inr (Or.inl h2))
    rw [if_neg h2]
    by_cases h3 : pySlice data 4 6 ≠ [0x4B, 0x0B]
    · rw [if_pos h3]
      exact iff_of_true rfl (Or.inr (Or.inr (Or.inl h3)))
    rw [if_neg h3]
    by_cases h4 : ¬ validate_packet data
    · rw [if_pos h4]
      refine iff_of_true rfl (Or.inr (Or.inr (Or.inr ?_)))
      simpa using h4
    rw [if_neg h4]
    apply iff_of_false
    · simp
    · rintro (h | h | h | h)
      · exact h1 h
      · exact h2 h
      · exact h3 h
      · have hv := not_not.mp h4
        rw [h] at hv
        simp at hv
  · intro r hr
    unfold parse_status_response at hr
    by_cases h1 : data.length < 14
    · rw [if_pos h1] at hr
      simp at hr
    rw [if_neg h1] at hr
    by_cases h2 : pySlice data 0 2 ≠ [0x24, 0x24]
    · rw [if_pos h2] at hr
      simp at hr
    rw [if_neg h2] at hr
    by_cases h3 : pySlice data 4 6 ≠ [0x4B, 0x0B]
    · rw [if_pos h3] at hr
      simp at hr
    rw [if_neg h3] at hr
    by_cases h4 : ¬ validate_packet data
    · rw [if_pos h4] at hr
      simp at hr
    rw [if_neg h4] at hr
    simp only [Option.some.injEq] at hr
    subst hr
    refine ⟨?_, ?_, ?_⟩
    · show ((data.getD 6 0 + 256 * data.getD 7 0 : Nat) : ℚ) / 100 = _
      push_cast
      ring
    · show (data.getD 8 0 == 0x02) = true ↔ _
      simp [beq_iff_eq]
    · show (data.getD 9 0 == 0x01) = true ↔ _
      simp [beq_iff_eq]

set_option maxRecDepth 4000 in
/-- Witness for C3 at the known-good status vector, whose reading is
voltage 12.62 V, battery ok, charging. -/
theorem parse_status_response_spec_witness :
    (⟨(1262 : ℚ) / 100, true, true⟩ : StatusReading).voltage =
        ((statusVec.getD 6 0 : ℚ) + 256 * (statusVec.getD 7 0 : ℚ)) / 100 ∧
      ((⟨(1262 : ℚ) / 100, true, true⟩ : StatusReading).battery_ok = true ↔
        statusVec.getD 8 0 = 0x02) ∧
      ((⟨(1262 : ℚ) / 100, true, true⟩ : StatusReading).charging = true ↔
        statusVec.getD 9 0 = 0x01) :=
  (parse_status_response_spec statusVec).2 ⟨(1262 : ℚ) / 100, true, true⟩
    (by
      unfold parse_status_response
      rw [if_neg (by decide), if_neg (by decide), if_neg (by decide),
        if_neg (by decide)]
      simp only [statusVec, List.getD_cons_succ, List.getD_cons_zero]
      norm_num)

/-- Claim C4.  `parse_device_info_response` succeeds exactly on inputs
passing the four structural checks (length at least 54, header `24 24`,
command `43 01`, valid CRC), in which case it returns the three 10-byte
fields at offsets 6, 16 and 26, each right-trimmed of trailing nulls
and with non-ASCII bytes dropped rather than failing; an all-null field
decodes to the empty string. -/
theorem parse_device_info_response_spec (data : List Nat) :
    (54 ≤ data.length → pySlice data 0 2 = [0x24, 0x24] →
      pySlice data 4 6 = [0x43, 0x01] → validate_packet data = true →
      parse_device_info_response data =
        some { model := decodeAsciiIgnore (rstripZeros (pySlice data 6 16))
               hw_version := decodeAsciiIgnore (rstripZeros (pySlice data 16 26))
               fw_version :=
                 decodeAsciiIgnore (rstripZeros (pySlice data 26 36)) }) ∧
    ((data.length < 54 ∨ pySlice data 0 2 ≠ [0x24, 0x24] ∨
        pySlice data 4 6 ≠ [0x43, 0x01] ∨ validate_packet data = false) →
      parse_device_info_response data = none) ∧
    decodeAsciiIgnore (rstripZeros (List.replicate 10 0)) = [] := by
  refine ⟨?_, ?_, by decide⟩
  · intro hl hh hc hv
    unfold parse_device_info_response
    rw [if_neg (by omega), if_neg (by simp [hh]), if_neg (by simp [hc]),
      if_neg (by simp [hv])]
    rfl
  · intro h
    unfold parse_device_info_response
    by_cases h1 : data.length < 54
    · rw [if_pos h1]
    rw [if_neg h1]
    by_cases h2 : pySlice data 0 2 ≠ [0x24, 0x24]
    · rw [if_pos h2]
    rw [if_neg h2]
    by_cases h3 : pySlice data 4 6 ≠ [0x43, 0x01]
    · rw [if_pos h3]
    rw [if_neg h3]
    by_cases h4 : ¬ validate_packet data
    · rw [if_pos h4]
    exfalso
    rcases h with h | h | h | h
    · exact h1 h
    · exact h2 h
    · exact h3 h
    · have hv := not_not.mp h4
      rw [h] at hv
      simp at hv

set_option maxRecDepth 10000 in
/-- Witness for C4 at the known-good device-info vector (model "BK300",
hardware "1.1", firmware "1.0.3" as ASCII byte lists). -/
theorem parse_device_info_response_spec_witness :
    parse_device_info_response infoVec =
      some { model := decodeAsciiIgnore (rstripZeros (pySlice infoVec 6 16))
             hw_version := decodeAsciiIgnore (rstripZeros (pySlice infoVec 16 26))
             fw_version :=
               decodeAsciiIgnore (rstripZeros (pySlice infoVec 26 36)) } :=
  (parse_device_info_response_spec infoVec).1 (by decide) (by decide)
    (by decide) (by decide)

set_option maxRecDepth 4000 in
/-- Claim C8.  The precomputed command constants equal the codec's
output for the corresponding command codes with empty payload, and the
status-poll constant is exactly the documented literal vector. -/
theorem command_constants_match_codec :
    CMD_DEVICE_INFO = build_packet [0x03, 0x01] [] ∧
    CMD_STATUS_POLL = build_packet [0x0B, 0x0B] [] ∧
    CMD_STATUS_POLL =
      [0x40, 0x40, 0x0A, 0x00, 0x0B, 0x0B, 0xA9, 0xB2, 0x0D, 0x0A] := by
  refine ⟨by decide, by decide, rfl⟩

set_option maxRecDepth 10000 in
/-- Claim C9.  The parsers never check the embedded length field at
bytes 2..3: packets whose length field differs from the documented
values (0x000E for status, 0x0036 for device info) but whose CRC was
computed accordingly are still accepted and parsed. -/
theorem length_field_not_inspected :
    (parse_status_response statusVecBadLen).isSome = true ∧
    pySlice statusVecBadLen 2 4 ≠ [0x0E, 0x00] ∧
    (parse_device_info_response infoVecBadLen).isSome = true ∧
    pySlice infoVecBadLen 2 4 ≠ [0x36, 0x00] := by
  refine ⟨by decide, by decide, by decide, by decide⟩

/-! Session lemmas -/

theorem fetchDeviceInfo_cached {s : SessionState} {info : DeviceInfo}
    (h : s.device_info = some info) (o : NotifyOutcome) :
    fetchDeviceInfo s o = ([], s, none) := by
  unfold fetchDeviceInfo
  rw [h]

theorem fetchDeviceInfo_uncached_writes {s : SessionState}
    (h : s.device_info = none) (o : NotifyOutcome) :
    (fetchDeviceInfo s o).1 = [CMD_DEVICE_INFO] := by
  unfold fetchDeviceInfo
  rw [h]
  cases o with
  | timeout => rfl
  | delivered d =>
    dsimp only
    split
    · rfl
    · split <;> rfl

theorem fetchDeviceInfo_fail {s : SessionState} {o : NotifyOutcome} {e : Failure}
    (h : (fetchDeviceInfo s o).2.2 = some e) :
    s.device_info = none ∧ (fetchDeviceInfo s o).2.1.device_info = none := by
  cases hs : s.device_info with
  | some info =>
    rw [fetchDeviceInfo_cached hs] at h
    simp at h
  | none =>
    refine ⟨rfl, ?_⟩
    unfold fetchDeviceInfo at h ⊢
    rw [hs] at h ⊢
    cases o with
    | timeout => rfl
    | delivered d =>
      dsimp only at h ⊢
      by_cases hm : responseMissing (some d)
      · rw [if_pos hm]
      · rw [if_neg hm] at h ⊢
        cases hp : parse_device_info_response d with
        | none => rfl
        | some info =>
          rw [hp] at h
          simp at h

theorem updateCycle_of_fetch_fail {s : SessionState} {o1 : NotifyOutcome}
    {ws : List (List Nat)} {s' : SessionState} {e : Failure}
    (hF : fetchDeviceInfo s o1 = (ws, s', some e)) (o2 : NotifyOutcome) :
    updateCycle s o1 o2 = (ws, s', .error e) := by
  unfold updateCycle
  rw [hF]

theorem updateCycle_writes_of_fetch_ok {s : SessionState} {o1 : NotifyOutcome}
    {ws : List (List Nat)} {s' : SessionState}
    (hF : fetchDeviceInfo s o1 = (ws, s', none)) (o2 : NotifyOutcome) :
    (updateCycle s o1 o2).1 = ws ++ [CMD_STATUS_POLL] := by
  unfold updateCycle
  rw [hF]
  cases o2 with
  | timeout => rfl
  | delivered d =>
    dsimp only
    split
    · rfl
    · split <;> rfl

/-- Claim C5.  If the device-identity exchange of a poll cycle fails,
the whole cycle fails with that same failure and the status-poll
command is never written to the transport. -/
theorem device_info_failure_aborts_cycle (s : SessionState)
    (o1 o2 : NotifyOutcome) (e : Failure)
    (h : (fetchDeviceInfo s o1).2.2 = some e) :
    (updateCycle s o1 o2).2.2 = Except.error e ∧
    CMD_STATUS_POLL ∉ (updateCycle s o1 o2).1 := by
  have hnone := (fetchDeviceInfo_fail h).1
  rcases hF : fetchDeviceInfo s o1 with ⟨ws, s', res⟩
  rw [hF] at h
  dsimp only at h
  subst h
  have hws : ws = [CMD_DEVICE_INFO] := by
    have hw := fetchDeviceInfo_uncached_writes hnone o1
    rw [hF] at hw
    exact hw
  have hcy := updateCycle_of_fetch_fail hF o2
  rw [hcy, hws]
  refine ⟨rfl, ?_⟩
  show CMD_STATUS_POLL ∉ [CMD_DEVICE_INFO]
  decide

/-- Witness for C5: from a fresh session, a timeout of the device-info
wait fails the cycle and only the device-info command was written. -/
theorem device_info_failure_aborts_cycle_witness :
    (updateCycle ⟨none, none⟩ .timeout .timeout).2.2 =
      Except.error Failure.deviceInfoTimeout ∧
    CMD_STATUS_POLL ∉ (updateCycle ⟨none, none⟩ .timeout .timeout).1 :=
  device_info_failure_aborts_cycle ⟨none, none⟩ .timeout .timeout
    Failure.deviceInfoTimeout (by decide)

/-- Claim C6.  With the device-identity cache populated, the fetch
returns immediately: no transport write, state (cache included)
unchanged, no failure; and a poll cycle from such a state performs
exactly one write, the status-poll command. -/
theorem cached_identity_no_io (s : SessionState) (o : NotifyOutcome)
    (info : DeviceInfo) (h : s.device_info = some info) :
    fetchDeviceInfo s o = ([], s, none) ∧
    ∀ o2, (updateCycle s o o2).1 = [CMD_STATUS_POLL] := by
  have hc := fetchDeviceInfo_cached h o
  refine ⟨hc, fun o2 => ?_⟩
  have hw := updateCycle_writes_of_fetch_ok hc o2
  simpa using hw

/-- Witness for C6 at a session whose cache holds the parsed identity
of the known-good device-info vector. -/
theorem cached_identity_no_io_witness :
    fetchDeviceInfo
        ⟨some ⟨[0x42, 0x4B, 0x33, 0x30, 0x30], [0x31, 0x2E, 0x31],
          [0x31, 0x2E, 0x30, 0x2E, 0x33]⟩, none⟩ .timeout =
      ([], ⟨some ⟨[0x42, 0x4B, 0x33, 0x30, 0x30], [0x31, 0x2E, 0x31],
        [0x31, 0x2E, 0x30, 0x2E, 0x33]⟩, none⟩, none) ∧
    (updateCycle
        ⟨some ⟨[0x42, 0x4B, 0x33, 0x30, 0x30], [0x31, 0x2E, 0x31],
          [0x31, 0x2E, 0x30, 0x2E, 0x33]⟩, none⟩ .timeout .timeout).1 =
      [CMD_STATUS_POLL] :=
  ⟨(cached_identity_no_io _ .timeout _ rfl).1,
   (cached_identity_no_io _ .timeout _ rfl).2 .timeout⟩

/-- Claim C7.  A failed device-identity exchange leaves the cache
unchanged (still unset), and a subsequent fetch performs the full
exchange again, writing the device-info command. -/
theorem fetch_failure_leaves_cache_unset (s : SessionState)
    (o : NotifyOutcome) (e : Failure)
    (h : (fetchDeviceInfo s o).2.2 = some e) :
    (fetchDeviceInfo s o).2.1.device_info = s.device_info ∧
    (fetchDeviceInfo s o).2.1.device_info = none ∧
    ∀ o2, (fetchDeviceInfo ((fetchDeviceInfo s o).2.1) o2).1 =
      [CMD_DEVICE_INFO] := by
  obtain ⟨h1, h2⟩ := fetchDeviceInfo_fail h
  exact ⟨h2.trans h1.symm, h2, fun o2 => fetchDeviceInfo_uncached_writes h2 o2⟩

/-- Witness for C7: after a timed-out exchange from a fresh session the
cache is still unset and the next fetch writes the command again. -/
theorem fetch_failure_leaves_cache_unset_witness :
    (fetchDeviceInfo ⟨none, none⟩ .timeout).2.1.device_info =
      (⟨none, none⟩ : SessionState).device_info ∧
    (fetchDeviceInfo ⟨none, none⟩ .timeout).2.1.device_info = none ∧
    ∀ o2, (fetchDeviceInfo ((fetchDeviceInfo ⟨none, none⟩ .timeout).2.1) o2).1 =
      [CMD_DEVICE_INFO] :=
  fetch_failure_leaves_cache_unset ⟨none, none⟩ .timeout
    Failure.deviceInfoTimeout (by decide)

/-- Claim C10.  An empty delivered notification resolves the armed wait
but is indistinguishable from no notification to the emptiness check,
so the cycle fails through the no-response path (never the
invalid-response path, so the parser's classification is not involved):
`noDeviceInfoResponse` for the device-info wait, `noStatusResponse` for
the status wait. -/
theorem empty_notification_is_no_response (s : SessionState)
    (h : s.device_info = none) :
    (fetchDeviceInfo s (.delivered [])).2.2 = some Failure.noDeviceInfoResponse ∧
    responseMissing (some []) = responseMissing none ∧
    ∀ o1, (fetchDeviceInfo s o1).2.2 = none →
      (updateCycle s o1 (.delivered [])).2.2 =
        Except.error Failure.noStatusResponse := by
  refine ⟨?_, rfl, ?_⟩
  · unfold fetchDeviceInfo
    rw [h]
    rfl
  · intro o1 ho
    rcases hF : fetchDeviceInfo s o1 with ⟨ws, s', res⟩
    rw [hF] at ho
    dsimp only at ho
    subst ho
    unfold updateCycle
    rw [hF]
    rfl

set_option maxRecDepth 10000 in
/-- Witness for C10: a fresh session; the successful first exchange is
fed the known-good device-info vector, the status wait an empty
notification. -/
theorem empty_notification_is_no_response_witness :
    (fetchDeviceInfo ⟨none, none⟩ (.delivered [])).2.2 =
      some Failure.noDeviceInfoResponse ∧
    (updateCycle ⟨none, none⟩ (.delivered infoVec) (.delivered [])).2.2 =
      Except.error Failure.noStatusResponse :=
  ⟨(empty_notification_is_no_response ⟨none, none⟩ rfl).1,
   (empty_notification_is_no_response ⟨none, none⟩ rfl).2.2
     (.delivered infoVec) (by decide)⟩

end Konnwei
